import Mathlib

/-!
Verification development for the Data-Whisperer extraction pipeline
(`datawhisperer/extractor.py`, `classify.py`, `utils.py`, `rules.py`,
`mapbuilder.py`).  The Python source is shallowly embedded: dictionaries
become structures, float confidences become rationals (every score the
code can produce is an exact multiple of 1/100, so this is lossless),
in-place dict mutation becomes explicit record update, and Python
exceptions (ValueError in `int()`) become `Option`.

String handling: Python `str` operations are modelled on `List Char`
via hand-rolled structurally recursive functions, so that every
definition reduces inside the kernel (`decide`).  The model is exact on
ASCII text; Unicode-only behaviours of Python (`str.lower` on
non-ASCII, `\d` matching non-ASCII digits, non-ASCII whitespace in
`int()`) are outside the modelled character range and are noted where
relevant.
-/

/-! ## String primitives (ASCII models of the Python `str` operations) -/

/-- ASCII model of Python `str.lower` on a single character. -/
def asciiLower (c : Char) : Char :=
  if 'A' ≤ c ∧ c ≤ 'Z' then Char.ofNat (c.toNat + 32) else c

/-- ASCII model of Python `str.lower`. -/
def py_lower (s : String) : String := ⟨s.data.map asciiLower⟩

/-- Helper for `pySplit`: fuel-indexed leftmost non-overlapping split on a
non-empty separator, following Python `str.split(sep)`. -/
def splitOnAux (sep : List Char) : Nat → List Char → List (List Char)
  | _, [] => [[]]
  | 0, l => [l]
  | fuel+1, x :: xs =>
    if sep.isPrefixOf (x :: xs) then
      [] :: splitOnAux sep fuel ((x :: xs).drop sep.length)
    else
      match splitOnAux sep fuel xs with
      | h :: t => (x :: h) :: t
      | [] => [[x]]

/-- Model of Python `s.split(sep)` for a non-empty separator `sep`. -/
def pySplit (s sep : String) : List String :=
  (splitOnAux sep.data (s.data.length + 1) s.data).map String.mk

/-- Model of Python `pat in s` (substring containment). -/
def containsSub (pat : List Char) : List Char → Bool
  | [] => pat.isPrefixOf []
  | x :: xs => pat.isPrefixOf (x :: xs) || containsSub pat xs

/-- Model of Python `pat in s` on strings. -/
def str_contains (s pat : String) : Bool := containsSub pat.data s.data

/-- Model of Python `s.endswith(suffix)`. -/
def ends_with (s suffix : String) : Bool := suffix.data.isSuffixOf s.data

/-- Model of Python `s.startswith(p)`. -/
def starts_with (s p : String) : Bool := p.data.isPrefixOf s.data

/-- Character length of a string (Python `len`). -/
def str_len (s : String) : Nat := s.data.length

/-- The text a fully anchored `re.match(r'^...$', s)` must cover: in
Python (without `re.MULTILINE`) `$` matches at the end of the string OR
just before one final newline, so such a pattern — when it can match no
newline itself — is a full match of the string minus an optional single
trailing newline. -/
def dollar_view (l : List Char) : List Char :=
  if l.getLast? = some '\n' then l.dropLast else l

/-! ## Python `int()` (ASCII model)

Python's `int(str)` strips surrounding whitespace, allows one optional
sign, and then requires a non-empty digit sequence in which single
underscores may appear between digits (PEP 515).  Failure raises
`ValueError`, modelled as `none`. -/

/-- ASCII whitespace stripped by Python `int()`. -/
def isPyWs (c : Char) : Bool :=
  c = ' ' || c = '\t' || c = '\n' || c = '\r' || c = '\x0b' || c = '\x0c'

/-- Numeric value of an ASCII digit list (most significant first). -/
def digitsToNat (l : List Char) : Nat :=
  l.foldl (fun acc c => acc * 10 + (c.toNat - 48)) 0

/-- Unsigned body of Python `int()`: digits with single underscores
strictly between digits. -/
def pyIntCore (l : List Char) : Option Nat :=
  if l = [] then none
  else if l.head? = some '_' ∨ l.getLast? = some '_' then none
  else if ¬ (l.all fun c => c.isDigit || c = '_') then none
  else if (l.zip l.tail).any (fun p => p.1 = '_' && p.2 = '_') then none
  else some (digitsToNat (l.filter Char.isDigit))

/-- ASCII model of Python `int(s)`; `none` models `ValueError`. -/
def pyInt (s : String) : Option Int :=
  let l := ((s.data.dropWhile isPyWs).reverse.dropWhile isPyWs).reverse
  match l with
  | '+' :: rest => (pyIntCore rest).map fun n => (n : Int)
  | '-' :: rest => (pyIntCore rest).map fun n => -(n : Int)
  | _ => (pyIntCore l).map fun n => (n : Int)

/-! ## Data model

`Entity` mirrors the dictionaries built by `EntityExtractor._add_entity`
(classify adds the `validated` flag; the extractor leaves it absent,
which `dict.get('validated', False)` reads as `false`, so the record
carries it from the start with default `false`).  `metadata` is the open
per-type mapping; the keys actually read anywhere in the core are
modelled as optional fields (`none` = key absent). -/

structure Metadata where
  domain : Option String := none
  subdomain : Option String := none
  username : Option String := none
  is_private : Option Bool := none
  currency : Option String := none
  is_domain_node : Option Bool := none
  deriving DecidableEq

structure Entity where
  type : String
  value : String
  line : Nat
  context : String
  method : String
  confidence : ℚ
  validated : Bool := false
  metadata : Metadata
  deriving DecidableEq

/-- Relationship records produced by `RelationshipEngine._add_relationship`
(and `classify._extract_relationships`).  The metadata keys used by the
rules are modelled as optional fields. -/
structure RelMetadata where
  via_domain : Option String := none
  shared_ip : Option String := none
  matched_username : Option String := none
  record_type : Option String := none
  deriving DecidableEq

structure Relationship where
  type : String
  source : String
  target : String
  confidence : ℚ
  metadata : RelMetadata
  deriving DecidableEq

/-! ## utils.py -/

/-! Rational arithmetic is computed on numerators and denominators via
`mkRat`, because the Batteries `Rat.add`/`Rat.mul`/… are marked
irreducible and so never reduce under `decide`.  These wrappers denote
exactly the usual field operations (see `ratAdd_eq` and `pyMin_eq`). -/

/-- Kernel-reducible exact addition on `ℚ`. -/
def ratAdd (a b : ℚ) : ℚ :=
  mkRat (a.num * b.den + b.num * a.den) (a.den * b.den)

/-- Kernel-reducible Boolean `≤` test on `ℚ` (denominators are positive). -/
def ratLeB (a b : ℚ) : Bool :=
  decide (a.num * (b.den : ℤ) ≤ b.num * (a.den : ℤ))

/-- Python `min` on two rationals. -/
def pyMin (a b : ℚ) : ℚ := if ratLeB a b then a else b

/-- Round `100·q` to the nearest integer with ties to even — Python's
rounding mode (the model treats the float inputs as the exact rationals
they denote).  Computed on the numerator/denominator: with `n = 100·num`,
`fl = ⌊n/den⌋` and remainder `rem = n - fl·den`, the fractional part
`rem/den` is compared with `1/2` by comparing `2·rem` with `den`. -/
def pyRound2Int (q : ℚ) : ℤ :=
  let n := q.num * 100
  let d : ℤ := q.den
  let fl := Int.fdiv n d
  let rem := n - fl * d
  if 2 * rem < d then fl
  else if d < 2 * rem then fl + 1
  else if fl % 2 = 0 then fl else fl + 1

/-- Python `round(x, 2)`. -/
def round2 (q : ℚ) : ℚ := mkRat (pyRound2Int q) 100

/-- Shape test of `utils.calculate_confidence` for type `'ip'`:
the regex `(\d{1,3}\.){3}\d{1,3}` anchored on both sides.  (This branch
is dead in the pipeline, whose IP types are `'ipv4'`/`'ipv6'`.) -/
def ipv4_shape (s : String) : Bool :=
  match pySplit (⟨dollar_view s.data⟩ : String) "." with
  | [a, b, c, d] =>
    [a, b, c, d].all fun p =>
      decide (1 ≤ p.data.length) && decide (p.data.length ≤ 3) &&
      p.data.all Char.isDigit
  | _ => false

/-- Expected hex lengths, the `expected_lengths` dict shared by
`utils.calculate_confidence` and `classify._validate_hash`. -/
def expected_lengths (hash_type : String) : Option Nat :=
  if hash_type = "md5" then some 32
  else if hash_type = "sha1" then some 40
  else if hash_type = "sha256" then some 64
  else if hash_type = "sha512" then some 128
  else none

/-- The hash-type list `['md5', 'sha1', 'sha256', 'sha512']`. -/
def hash_types : List String := ["md5", "sha1", "sha256", "sha512"]

/-- Embedding of `utils.calculate_confidence`.  The email branch reads
`'@' in entity_value and '.' in entity_value.split('@')[1]` (the split
element access is safe because the containment test already succeeded). -/
def calculate_confidence (entity_value entity_type : String)
    (validation_passed : Bool) : ℚ :=
  let base0 : ℚ := if validation_passed then mkRat 9 10 else mkRat 1 2
  let base1 : ℚ :=
    if entity_type = "email" then
      if str_contains entity_value "@" &&
          str_contains ((pySplit entity_value "@").getD 1 "") "." then
        pyMin (ratAdd base0 (mkRat 1 10)) (mkRat 1 1)
      else base0
    else if entity_type = "ip" then
      if ipv4_shape entity_value then
        pyMin (ratAdd base0 (mkRat 1 10)) (mkRat 1 1)
      else base0
    else if hash_types.contains entity_type then
      if entity_value.data.length = (expected_lengths entity_type).getD 0 then
        mkRat 1 1
      else base0
    else base0
  round2 base1

/-- Second octets matched by `^172\.(1[6-9]|2[0-9]|3[0-1])\.` after the
leading `172.`. -/
def private_172_seconds : List String :=
  ["16.", "17.", "18.", "19.", "20.", "21.", "22.", "23.",
   "24.", "25.", "26.", "27.", "28.", "29.", "30.", "31."]

/-- Embedding of `utils.is_private_ip`: the list of `re.match` prefix
patterns (and the full match `^::1$`). -/
def is_private_ip (ip : String) : Bool :=
  starts_with ip "10." ||
  (starts_with ip "172." &&
    private_172_seconds.any fun p => starts_with ⟨ip.data.drop 4⟩ p) ||
  starts_with ip "192.168." ||
  starts_with ip "127." ||
  starts_with ip "169.254." ||
  ip = "::1" ||
  starts_with ip "fe80:" ||
  starts_with ip "fc00:" ||
  starts_with ip "fd00:"

/-! ## extractor.py: the deduplicating `_add_entity`

Every extraction helper funnels through `_add_entity`, which skips the
append when an already-emitted entity has the same `value` and `type`.
The line/context/metadata computation happens before the call, so the
model takes the fully built candidate record. -/

/-- Embedding of `EntityExtractor._add_entity`'s append-or-skip step. -/
def add_entity (entities : List Entity) (e : Entity) : List Entity :=
  if entities.any fun x => x.value == e.value && x.type == e.type then
    entities
  else entities ++ [e]

/-! ## classify.py: the per-type validators -/

/-- Characters of the regex class `[a-zA-Z0-9._%+-]` (email local part). -/
def email_char_local (c : Char) : Bool :=
  c.isAlphanum || c = '.' || c = '_' || c = '%' || c = '+' || c = '-'

/-- Characters of the regex class `[a-zA-Z0-9.-]` (email domain part). -/
def email_char_dom (c : Char) : Bool :=
  c.isAlphanum || c = '.' || c = '-'

/-- Characters of the regex class `[A-Z|a-z]` (email TLD part; the
pattern literally includes `|` inside the class). -/
def email_char_tld (c : Char) : Bool :=
  c.isAlpha || c = '|'

/-- Match of `^[a-zA-Z0-9._%+-]+@[a-zA-Z0-9.-]+\.[A-Z|a-z]{2,}$`.
Since `@` occurs in no character class, a match forces exactly one `@`;
and since the TLD class excludes `.`, the literal `\.` can only match
the last dot after the `@`.  The regex is therefore equivalent to:
exactly one `@`; non-empty all-local-class part before it; after it, a
non-empty all-domain-class part up to the last dot, then at least two
all-TLD-class characters.  No class contains a newline, so the `$` is a
full match of the `dollar_view`. -/
def email_regex_match (s : String) : Bool :=
  match pySplit (⟨dollar_view s.data⟩ : String) "@" with
  | [l, r] =>
    decide (1 ≤ l.data.length) && l.data.all email_char_local &&
    (let segs := pySplit r "."
     let tld := (segs.getLastD "").data
     let dom := List.intercalate ['.'] (segs.dropLast.map String.data)
     decide (1 ≤ dom.length) && dom.all email_char_dom &&
     decide (2 ≤ tld.length) && tld.all email_char_tld)
  | _ => false

/-- The pseudo-TLD denylist of `_validate_email`. -/
def invalid_tlds : List String := [".local", ".test", ".example", ".invalid"]

/-- Embedding of `EntityClassifier._validate_email`. -/
def validate_email (email : String) : Bool :=
  if ¬ email_regex_match email then false
  else if invalid_tlds.any (fun tld => ends_with (py_lower email) tld) then
    false
  else true

/-- The comprehension `[int(p) for p in parts]`: all values, or `none`
when any `int(p)` raises `ValueError`. -/
def try_int_list : List String → Option (List Int)
  | [] => some []
  | p :: ps =>
    match pyInt p, try_int_list ps with
    | some v, some vs => some (v :: vs)
    | _, _ => none

/-- Embedding of `EntityClassifier._validate_ip`.  The caught
`ValueError` of the `int(p)` comprehension is the `none` case. -/
def validate_ip (ip ip_type : String) : Bool :=
  if ip_type = "ipv4" then
    let parts := pySplit ip "."
    if parts.length ≠ 4 then false
    else
      match try_int_list parts with
      | none => false
      | some octets =>
        if ¬ (octets.all fun o => decide (0 ≤ o ∧ o ≤ 255)) then false
        else if octets.headD 0 = 0 ∨ 240 ≤ octets.headD 0 then false
        else true
  else if ip_type = "ipv6" then
    if str_contains ip "::" then
      if 2 < (pySplit ip "::").length then false else true
    else true
  else false

/-- Embedding of `EntityClassifier._validate_url`. -/
def validate_url (url : String) : Bool :=
  if ¬ (starts_with url "http://" || starts_with url "https://") then false
  else if str_contains (py_lower url) "example.com" ||
      str_contains (py_lower url) "localhost" then false
  else true

/-- Characters of the regex class `[a-fA-F0-9]`. -/
def is_hex_char (c : Char) : Bool :=
  c.isDigit || ('a' ≤ c && c ≤ 'f') || ('A' ≤ c && c ≤ 'F')

/-- Embedding of `EntityClassifier._validate_hash`: expected length,
`^[a-fA-F0-9]+$` (a full hex match of the `dollar_view`, since `$` also
matches before one final newline), and the `len(set(value.lower())) <=
2` degenerate repeated-character guard on the raw value. -/
def validate_hash (value hash_type : String) : Bool :=
  match expected_lengths hash_type with
  | none => false
  | some n =>
    if value.data.length ≠ n then false
    else if ¬ (decide (1 ≤ (dollar_view value.data).length) &&
        (dollar_view value.data).all is_hex_char) then false
    else if (py_lower value).data.toFinset.card ≤ 2 then false
    else true

/-- The base58 alphabet string used by `_validate_bitcoin`. -/
def base58_chars : List Char :=
  "123456789ABCDEFGHJKLMNPQRSTUVWXYZabcdefghijkmnopqrstuvwxyz".data

/-- Embedding of `EntityClassifier._validate_bitcoin`. -/
def validate_bitcoin (address : String) : Bool :=
  if ¬ (25 ≤ address.data.length ∧ address.data.length ≤ 34) then false
  else if ¬ (address.data.headD ' ' = '1' ∨ address.data.headD ' ' = '3') then
    false
  else if ¬ (address.data.all fun c => base58_chars.contains c) then false
  else true

/-- Embedding of `EntityClassifier._validate_ethereum`; the final regex
`^0x[a-fA-F0-9]{40}$` amounts (under the two earlier checks) to the last
40 characters being hex. -/
def validate_ethereum (address : String) : Bool :=
  if address.data.length ≠ 42 then false
  else if ¬ starts_with address "0x" then false
  else if ¬ (((dollar_view address.data).take 2) = ['0', 'x'] &&
      ((dollar_view address.data).drop 2).length = 40 &&
      ((dollar_view address.data).drop 2).all is_hex_char) then false
  else true

/-- The protocol-like username denylist of `_validate_credential`. -/
def cred_false_positives : List String := ["http", "https", "ftp", "port", "time"]

/-- Embedding of `EntityClassifier._validate_credential`. -/
def validate_credential (credential : String) : Bool :=
  match pySplit credential ":" with
  | [username, password] =>
    if username.data.length < 3 ∨ 50 < username.data.length then false
    else if password.data.length < 4 ∨ 100 < password.data.length then false
    else if cred_false_positives.any
        (fun fp => str_contains (py_lower username) fp) then false
    else true
  | _ => false

/-- Embedding of `EntityClassifier._validate_phone` (ASCII `\d`). -/
def validate_phone (phone : String) : Bool :=
  let digits := phone.data.filter Char.isDigit
  decide (10 ≤ digits.length) && decide (digits.length ≤ 15)

/-! ## classify.py: `_validate_entity` and the entity list of `classify` -/

/-- The per-type dispatch of `EntityClassifier._validate_entity`: the
validation verdict, together with the entity as the branch leaves it
(the IP branch writes the `is_private` metadata flag in place). -/
def validation_result (entity : Entity) : Bool × Entity :=
  if entity.type = "email" then (validate_email entity.value, entity)
  else if entity.type = "ipv4" ∨ entity.type = "ipv6" then
    (validate_ip entity.value entity.type,
     { entity with
        metadata :=
          { entity.metadata with is_private := some (is_private_ip entity.value) } })
  else if entity.type = "url" then (validate_url entity.value, entity)
  else if hash_types.contains entity.type then
    (validate_hash entity.value entity.type, entity)
  else if entity.type = "bitcoin_wallet" then
    (validate_bitcoin entity.value, entity)
  else if entity.type = "ethereum_wallet" then
    (validate_ethereum entity.value, entity)
  else if entity.type = "credential" then
    (validate_credential entity.value, entity)
  else if entity.type = "phone" then (validate_phone entity.value, entity)
  else (true, entity)

/-- Embedding of `EntityClassifier._validate_entity`: sets `confidence`
and `validated`, then returns the entity only when validation passed
(`None`, i.e. dropped, otherwise). -/
def validate_entity (entity : Entity) : Option Entity :=
  let r := validation_result entity
  let e' := { r.2 with
    confidence := calculate_confidence entity.value entity.type r.1,
    validated := r.1 }
  if r.1 then some e' else none

/-- The `validated_entities` list accumulated by `classify` (appending
each surviving entity in order is `filterMap`). -/
def classify_entities (entities : List Entity) : List Entity :=
  entities.filterMap validate_entity

/-- The statistics dict of `_generate_statistics`.  `avg`/`high`/`rate`
keep their initial value `0` when the entity list is empty. -/
structure Stats where
  total_entities : Nat
  by_type : List (String × Nat)
  confidence_avg : ℚ
  high_confidence : Nat
  validation_rate : ℚ
  deriving DecidableEq

/-- The `by_type` counting dict: `get(t, 0) + 1` keyed by type, in
first-occurrence order. -/
def bump_count (acc : List (String × Nat)) (t : String) : List (String × Nat) :=
  match acc with
  | [] => [(t, 1)]
  | (k, n) :: rest =>
    if k = t then (k, n + 1) :: rest else (k, n) :: bump_count rest t

/-- Embedding of `EntityClassifier._generate_statistics`. -/
def generate_statistics (entities : List Entity) : Stats :=
  let by_type := entities.foldl (fun acc e => bump_count acc e.type) []
  if entities.length = 0 then
    { total_entities := entities.length, by_type := by_type,
      confidence_avg := 0, high_confidence := 0, validation_rate := 0 }
  else
    { total_entities := entities.length, by_type := by_type,
      confidence_avg :=
        round2 (mkRat ((entities.map (·.confidence)).foldl ratAdd (mkRat 0 1)).num
          (((entities.map (·.confidence)).foldl ratAdd (mkRat 0 1)).den *
            entities.length)),
      high_confidence :=
        entities.countP fun e => ratLeB (mkRat 8 10) e.confidence,
      validation_rate :=
        round2 (mkRat (entities.countP (·.validated)) entities.length) }

/-- The classifier output fields referenced by the claims: the validated
entity list and the statistics computed from it.  (`classify` also
builds type/domain/subnet groupings and a provisional relationship list;
no claim reads those, and the CLI pipeline overwrites the relationship
field with `RelationshipEngine.build_relationships` before use.) -/
structure Classified where
  entities : List Entity
  statistics : Stats
  deriving DecidableEq

/-- Embedding of `EntityClassifier.classify` (entities and statistics
sections): validate and score each entity, keep the survivors, compute
statistics over the survivors only. -/
def classify (entities : List Entity) : Classified :=
  let validated := classify_entities entities
  { entities := validated, statistics := generate_statistics validated }

/-! ## rules.py: the relationship engine

Each rule takes the pipeline state — the entity list and the
relationship list accumulated so far — and returns the state it leaves
behind.  The Python rules receive the (mutable) entity list; none of
them writes to it, so every rule returns the entity list unchanged, and
extends only the relationship list. -/

/-- Embedding of `RelationshipEngine._add_relationship`: appends unless
a relationship with the same `(type, source, target)` already exists. -/
def add_relationship (rels : List Relationship) (rel_type source target : String)
    (confidence : ℚ) (metadata : RelMetadata) : List Relationship :=
  if rels.any fun r =>
      r.source == source && r.target == target && r.type == rel_type then
    rels
  else rels ++ [⟨rel_type, source, target, confidence, metadata⟩]

/-- Python truthiness of `metadata.get('domain')`: present and non-empty. -/
def truthy_domain (m : Metadata) : Option String :=
  match m.domain with
  | some d => if d = "" then none else some d
  | none => none

/-- Embedding of `RelationshipEngine._email_to_domain`. -/
def email_to_domain (st : List Entity × List Relationship) :
    List Entity × List Relationship :=
  (st.1, st.1.foldl (fun rs e =>
    if e.type = "email" then
      match truthy_domain e.metadata with
      | some d => add_relationship rs "email_to_domain" e.value d e.confidence {}
      | none => rs
    else rs) st.2)

/-- Embedding of `RelationshipEngine._url_to_domain`. -/
def url_to_domain (st : List Entity × List Relationship) :
    List Entity × List Relationship :=
  (st.1, st.1.foldl (fun rs e =>
    if e.type = "url" then
      match truthy_domain e.metadata with
      | some d => add_relationship rs "url_to_domain" e.value d e.confidence {}
      | none => rs
    else rs) st.2)

/-- Insertion-ordered model of `defaultdict(list)`: append `v` to the
bucket of `k`, creating the bucket at the end if absent. -/
def upsert_vals (acc : List (String × List String)) (k v : String) :
    List (String × List String) :=
  match acc with
  | [] => [(k, [v])]
  | (k0, vs) :: rest =>
    if k0 = k then (k0, vs ++ [v]) :: rest else (k0, vs) :: upsert_vals rest k v

/-- First-match bucket lookup in the `defaultdict` model. -/
def lookup_vals (acc : List (String × List String)) (k : String) : List String :=
  match acc with
  | [] => []
  | (k0, vs) :: rest => if k0 = k then vs else lookup_vals rest k

/-- The single pass of `_shared_domains` filling `email_domains` and
`url_domains`. -/
def collect_domains (entities : List Entity) :
    List (String × List String) × List (String × List String) :=
  entities.foldl (fun acc e =>
    if e.type = "email" then
      match truthy_domain e.metadata with
      | some d => (upsert_vals acc.1 d e.value, acc.2)
      | none => acc
    else if e.type = "url" then
      match truthy_domain e.metadata with
      | some d => (acc.1, upsert_vals acc.2 d e.value)
      | none => acc
    else acc) ([], [])

/-- Embedding of `RelationshipEngine._shared_domains`: for every domain
in both maps, a `shared_domain` edge for each (email, url) pair at
confidence 0.85.  (Python iterates the key-set intersection in hash
order; the model iterates in email-map insertion order — the produced
set of relationships is the same, and all claims are order-insensitive.) -/
def shared_domains (st : List Entity × List Relationship) :
    List Entity × List Relationship :=
  let ed := (collect_domains st.1).1
  let ud := (collect_domains st.1).2
  let shared := (ed.map Prod.fst).filter fun d => (ud.map Prod.fst).contains d
  (st.1, shared.foldl (fun rs d =>
    (lookup_vals ed d).foldl (fun rs2 email =>
      (lookup_vals ud d).foldl (fun rs3 url =>
        add_relationship rs3 "shared_domain" email url (mkRat 85 100)
          { via_domain := some d }) rs2) rs) st.2)

/-- Insertion-ordered `defaultdict(list)` with `('ip', value)`-pair
entries, as built by `_shared_ips`. -/
def upsert_pairs (acc : List (String × List (String × String))) (k : String)
    (v : String × String) : List (String × List (String × String)) :=
  match acc with
  | [] => [(k, [v])]
  | (k0, vs) :: rest =>
    if k0 = k then (k0, vs ++ [v]) :: rest else (k0, vs) :: upsert_pairs rest k v

/-- The `ip_to_domains` map of `_shared_ips`: every `ipv4`/`ipv6` entity
appends the pair `('ip', value)` under the key `value`. -/
def ip_to_domains (entities : List Entity) :
    List (String × List (String × String)) :=
  entities.foldl (fun acc e =>
    if e.type = "ipv4" ∨ e.type = "ipv6" then
      upsert_pairs acc e.value ("ip", e.value)
    else acc) []

/-- All ordered pairs `(l[i], l[j])` with `i < j` — the nested
`enumerate` loop of `_shared_ips`. -/
def all_pairs {α : Type} : List α → List (α × α)
  | [] => []
  | x :: xs => (xs.map fun y => (x, y)) ++ all_pairs xs

/-- Embedding of `RelationshipEngine._shared_ips`: for each value bucket
holding more than one entry, a pairwise `shared_ip` edge at
confidence 0.8. -/
def shared_ips (st : List Entity × List Relationship) :
    List Entity × List Relationship :=
  (st.1, (ip_to_domains st.1).foldl (fun rs kv =>
    if 1 < kv.2.length then
      (all_pairs kv.2).foldl (fun rs2 pq =>
        add_relationship rs2 "shared_ip" pq.1.2 pq.2.2 (mkRat 8 10)
          { shared_ip := some kv.1 }) rs
    else rs) st.2)

/-- Embedding of `RelationshipEngine._credential_to_email`: a
`credential_to_email` edge whenever the credential's `username`
metadata (lower-cased, absent read as `''`) equals the part of some
email value before its first `@` (lower-cased). -/
def credential_to_email (st : List Entity × List Relationship) :
    List Entity × List Relationship :=
  let emails := st.1.filter fun e => e.type = "email"
  let credentials := st.1.filter fun e => e.type = "credential"
  (st.1, credentials.foldl (fun rs cred =>
    let username := py_lower (cred.metadata.username.getD "")
    emails.foldl (fun rs2 email =>
      let email_user := py_lower ((pySplit email.value "@").headD "")
      if username = email_user then
        add_relationship rs2 "credential_to_email" cred.value email.value
          (mkRat 8 10) { matched_username := some username }
      else rs2) rs) st.2)

/-- The unique-domain set collected by `_domain_to_ip` (modelled as an
insertion-ordered deduplicated list; Python iterates a hash set). -/
def collect_unique_domains (entities : List Entity) : List String :=
  entities.foldl (fun acc e =>
    if e.type = "email" ∨ e.type = "url" then
      match truthy_domain e.metadata with
      | some d => if acc.contains d then acc else acc ++ [d]
      | none => acc
    else acc) []

/-- Embedding of `RelationshipEngine._domain_to_ip`.  The external DNS
resolver is a parameter `resolve : domain → record type → addresses`; a
swallowed lookup failure (timeout, NXDOMAIN, missing record) is a
resolver returning the empty list, which contributes no edges. -/
def domain_to_ip (resolve : String → String → List String)
    (st : List Entity × List Relationship) : List Entity × List Relationship :=
  (st.1, (collect_unique_domains st.1).foldl (fun rs d =>
    let rs2 := (resolve d "A").foldl (fun r ip =>
      add_relationship r "domain_to_ip" d ip (mkRat 95 100)
        { record_type := some "A" }) rs
    (resolve d "AAAA").foldl (fun r ip =>
      add_relationship r "domain_to_ip" d ip (mkRat 95 100)
        { record_type := some "AAAA" }) rs2) st.2)

/-- Embedding of `RelationshipEngine.build_relationships`: reset the
relationship list, apply the five local rules in order, then the
DNS rule only when lookups are enabled.  Returns the final state
(entity list as the rules leave it, and the relationship list). -/
def build_relationships (resolve : String → String → List String)
    (enable_dns_lookup : Bool) (entities : List Entity) :
    List Entity × List Relationship :=
  let st := (entities, ([] : List Relationship))
  let st := email_to_domain st
  let st := url_to_domain st
  let st := shared_domains st
  let st := shared_ips st
  let st := credential_to_email st
  let st := if enable_dns_lookup then domain_to_ip resolve st else st
  st

/-- A resolver with no answers (all lookups fail); used where the DNS
rule is disabled and the resolver is irrelevant. -/
def empty_resolver : String → String → List String := fun _ _ => []

/-! ## mapbuilder.py: graph assembly and statistics

Nodes and edges are modelled with the attributes the claims read; the
purely decorative attributes (`label`, `color`, `line`, `context`) and
the centrality annotations written by `_calculate_metrics` (which add
node attributes but create or remove no node or edge) are omitted. -/

structure GNode where
  id : String
  type : String
  confidence : ℚ
  metadata : Metadata
  deriving DecidableEq

structure GEdge where
  source : String
  target : String
  relationship : String
  confidence : ℚ
  weight : ℚ
  metadata : RelMetadata
  deriving DecidableEq

structure Graph where
  nodes : List GNode
  edges : List GEdge
  deriving DecidableEq

/-- `networkx.Graph.add_node`: replace the attributes when the node id
exists, append otherwise. -/
def upsert_node (ns : List GNode) (n : GNode) : List GNode :=
  if ns.any fun m => m.id == n.id then
    ns.map fun m => if m.id == n.id then n else m
  else ns ++ [n]

/-- Membership test `x in graph` on node ids. -/
def graph_has_node (g : Graph) (id : String) : Bool :=
  g.nodes.any fun n => n.id == id

/-- Embedding of `GraphBuilder._add_entity_nodes`. -/
def add_entity_nodes (entities : List Entity) (g : Graph) : Graph :=
  entities.foldl (fun acc e =>
    { acc with nodes := upsert_node acc.nodes ⟨e.value, e.type, e.confidence, e.metadata⟩ }) g

/-- The domain collection loop of `_add_domain_nodes`: domains of
email/URL entities that are not already graph nodes, deduplicated
(Python collects them in a set; the model keeps insertion order). -/
def collect_domain_nodes (entities : List Entity) (g : Graph) : List String :=
  entities.foldl (fun acc e =>
    if e.type = "email" ∨ e.type = "url" then
      match truthy_domain e.metadata with
      | some d =>
        if ¬ graph_has_node g d ∧ ¬ acc.contains d then acc ++ [d] else acc
      | none => acc
    else acc) []

/-- Embedding of `GraphBuilder._add_domain_nodes`: synthetic `domain`
nodes at confidence 0.9. -/
def add_domain_nodes (entities : List Entity) (g : Graph) : Graph :=
  (collect_domain_nodes entities g).foldl (fun acc d =>
    { acc with
      nodes := upsert_node acc.nodes
        ⟨d, "domain", mkRat 9 10, { is_domain_node := some true }⟩ }) g

/-- `networkx.Graph.add_edge` on an undirected graph: update the
attributes when the endpoint pair (in either orientation) is already an
edge, append otherwise. -/
def upsert_edge (es : List GEdge) (e : GEdge) : List GEdge :=
  if es.any fun f =>
      (f.source == e.source && f.target == e.target) ||
      (f.source == e.target && f.target == e.source) then
    es.map fun f =>
      if (f.source == e.source && f.target == e.target) ||
          (f.source == e.target && f.target == e.source) then e else f
  else es ++ [e]

/-- Embedding of `GraphBuilder._add_relationship_edges`: only
relationships whose two endpoints are existing nodes become edges. -/
def add_relationship_edges (relationships : List Relationship) (g : Graph) :
    Graph :=
  relationships.foldl (fun acc r =>
    if graph_has_node acc r.source && graph_has_node acc r.target then
      { acc with
        edges := upsert_edge acc.edges
          ⟨r.source, r.target, r.type, r.confidence, r.confidence, r.metadata⟩ }
    else acc) g

/-- Embedding of `GraphBuilder.build_graph` on the `entities` and
`relationships` sections of the classified data: entity nodes, then
synthetic domain nodes, then relationship edges. -/
def build_graph (entities : List Entity) (relationships : List Relationship) :
    Graph :=
  let g : Graph := ⟨[], []⟩
  let g := add_entity_nodes entities g
  let g := add_domain_nodes entities g
  let g := add_relationship_edges relationships g
  g

/-- Undirected adjacency on node ids. -/
def adjacentB (g : Graph) (a b : String) : Bool :=
  g.edges.any fun e =>
    (e.source == a && e.target == b) || (e.source == b && e.target == a)

/-- One breadth step: add every node adjacent to the current set. -/
def grow_component (g : Graph) (s : List String) : List String :=
  s ++ (g.nodes.map (·.id)).filter fun v =>
    ¬ s.contains v ∧ s.any fun u => adjacentB g u v

/-- Iterated breadth expansion (the node count bounds every path). -/
def iterate_grow (g : Graph) : Nat → List String → List String
  | 0, s => s
  | n + 1, s => iterate_grow g n (grow_component g s)

/-- Connected component of a node, as a node-id list. -/
def component_of (g : Graph) (start : String) : List String :=
  iterate_grow g g.nodes.length [start]

/-- Number of connected components (`networkx.number_connected_components`). -/
def count_components (g : Graph) : Nat :=
  ((g.nodes.map (·.id)).foldl (fun acc v =>
    if acc.2.contains v then acc else (acc.1 + 1, acc.2 ++ component_of g v))
    ((0 : Nat), ([] : List String))).1

/-- `networkx.density` for an undirected graph: `2m / (n(n-1))`, and `0`
for an empty or single-node or edgeless graph. -/
def graph_density (g : Graph) : ℚ :=
  let n := g.nodes.length
  let m := g.edges.length
  if m = 0 ∨ n ≤ 1 then 0 else mkRat (2 * m) (n * (n - 1))

/-- Degree of a node (a self-loop counts twice, as in networkx). -/
def node_degree (g : Graph) (id : String) : Nat :=
  g.edges.foldl (fun acc e =>
    if e.source == id && e.target == id then acc + 2
    else if e.source == id || e.target == id then acc + 1
    else acc) 0

/-- Insert into a degree-descending list (stable for ties, like Python's
`sorted(..., reverse=True)`). -/
def insert_by_degree (x : String × Nat) :
    List (String × Nat) → List (String × Nat)
  | [] => [x]
  | y :: ys => if y.2 ≤ x.2 then x :: y :: ys else y :: insert_by_degree x ys

/-- Degree-descending sort. -/
def sort_by_degree (l : List (String × Nat)) : List (String × Nat) :=
  l.foldr insert_by_degree []

/-- The statistics dict of `GraphBuilder.get_graph_statistics`.  The
`avg_degree` and `top_connected_nodes` keys are absent from the
empty-graph dict, modelled as `none`. -/
structure GraphStats where
  nodes : Nat
  edges : Nat
  density : ℚ
  components : Nat
  avg_degree : Option ℚ
  top_connected_nodes : Option (List (String × Nat))
  deriving DecidableEq

/-- Embedding of `GraphBuilder.get_graph_statistics`. -/
def get_graph_statistics (g : Graph) : GraphStats :=
  if g.nodes.length = 0 then
    { nodes := 0, edges := 0, density := 0, components := 0,
      avg_degree := none, top_connected_nodes := none }
  else
    { nodes := g.nodes.length, edges := g.edges.length,
      density := graph_density g, components := count_components g,
      avg_degree :=
        some (mkRat ((g.nodes.map fun n => node_degree g n.id).foldl (·+·) 0)
          g.nodes.length),
      top_connected_nodes :=
        some ((sort_by_degree (g.nodes.map fun n => (n.id, node_degree g n.id))).take 5) }

/-! ## Claim-side definitions

These render the spec's wording, for comparison with the definitions
embedded from the source. -/

/-- The fixed entity-type enumeration of the data model (the `type`
strings the pipeline emits). -/
def entity_types : List String :=
  ["email", "ipv4", "ipv6", "url", "md5", "sha1", "sha256", "sha512",
   "bitcoin_wallet", "ethereum_wallet", "phone", "credential", "api_key",
   "jwt_token"]

/-- Confidence formula exactly as the claim words it: base 0.9/0.5; for
emails +0.1 capped at 1.0 when a domain with a dot is present in the
entity's METADATA; exactly 1.0 for a hash type whose value has the
expected length; rounded to two decimals. -/
def confidence_per_claim (e : Entity) (validation_passed : Bool) : ℚ :=
  let base0 : ℚ := if validation_passed then mkRat 9 10 else mkRat 1 2
  let base1 : ℚ :=
    if e.type = "email" then
      match e.metadata.domain with
      | some d =>
        if str_contains d "." then pyMin (ratAdd base0 (mkRat 1 10)) (mkRat 1 1)
        else base0
      | none => base0
    else base0
  let base2 : ℚ :=
    if hash_types.contains e.type then
      if e.value.data.length = (expected_lengths e.type).getD 0 then mkRat 1 1
      else base1
    else base1
  round2 base2

/-- Amended confidence formula: as the claim, except that the email
bonus condition reads the VALUE — `@` present and a dot somewhere after
the first `@` — which is what `calculate_confidence` actually tests
(for scanner-produced email entities the two conditions coincide,
since their `domain` metadata is the part of the value after `@`). -/
def confidence_amended (e : Entity) (validation_passed : Bool) : ℚ :=
  let base0 : ℚ := if validation_passed then mkRat 9 10 else mkRat 1 2
  let base1 : ℚ :=
    if e.type = "email" then
      if str_contains e.value "@" &&
          str_contains ((pySplit e.value "@").getD 1 "") "." then
        pyMin (ratAdd base0 (mkRat 1 10)) (mkRat 1 1)
      else base0
    else base0
  let base2 : ℚ :=
    if hash_types.contains e.type then
      if e.value.data.length = (expected_lengths e.type).getD 0 then mkRat 1 1
      else base1
    else base1
  round2 base2

/-- The C6 claim-side reading of "four dot-separated integers each in
[0,255], first octet neither 0 nor ≥ 240": each dot-separated field a
non-empty plain digit string. -/
def ipv4_claim_pred (s : String) : Bool :=
  match pySplit s "." with
  | [a, b, c, d] =>
    [a, b, c, d].all (fun p =>
      decide (1 ≤ p.data.length) && p.data.all Char.isDigit &&
      decide (digitsToNat p.data ≤ 255)) &&
    ¬ digitsToNat a.data = 0 && decide (digitsToNat a.data < 240)
  | _ => false

/-- The amended C6 acceptance condition: four dot-separated fields, each
a string Python's `int()` accepts (optional surrounding whitespace,
optional sign, digits with single underscore separators), with values
in [0,255] and the first value neither 0 nor ≥ 240. -/
def ipv4_accepts (s : String) : Prop :=
  ∃ (a b c d : String) (w x y z : ℤ),
    pySplit s "." = [a, b, c, d] ∧
    pyInt a = some w ∧ pyInt b = some x ∧ pyInt c = some y ∧ pyInt d = some z ∧
    0 ≤ w ∧ w ≤ 255 ∧ 0 ≤ x ∧ x ≤ 255 ∧ 0 ≤ y ∧ y ≤ 255 ∧ 0 ≤ z ∧ z ≤ 255 ∧
    w ≠ 0 ∧ w < 240

/-- Values of the IP-typed entities in a list (the grouping domain of
`_shared_ips`). -/
def ip_values (entities : List Entity) : List String :=
  (entities.filter fun e => e.type = "ipv4" ∨ e.type = "ipv6").map (·.value)

/-! ## Concrete pipeline inputs for the closed theorems -/

/-- The two candidates the Scanner emits for a text containing
`admin@example.com` and `https://example.com/page` (per
`_extract_emails` and `_extract_urls`: lower-cased values, the email's
domain from the part after `@`, the URL's domain via `tldextract`). -/
def c1_scanned : List Entity :=
  [{ type := "email", value := "admin@example.com", line := 1,
     context := "Contact admin@example.com via https://example.com/page",
     method := "regex", confidence := mkRat 0 1,
     metadata := { domain := some "example.com" } },
   { type := "url", value := "https://example.com/page", line := 1,
     context := "Contact admin@example.com via https://example.com/page",
     method := "regex", confidence := mkRat 0 1,
     metadata := { domain := some "example.com", subdomain := some "" } }]

/-- The same two candidates for a non-placeholder domain (`acme.com`). -/
def c1_amended_scanned : List Entity :=
  [{ type := "email", value := "admin@acme.com", line := 1,
     context := "Contact admin@acme.com via https://acme.com/page",
     method := "regex", confidence := mkRat 0 1,
     metadata := { domain := some "acme.com" } },
   { type := "url", value := "https://acme.com/page", line := 1,
     context := "Contact admin@acme.com via https://acme.com/page",
     method := "regex", confidence := mkRat 0 1,
     metadata := { domain := some "acme.com", subdomain := some "" } }]

/-- An email-typed entity whose metadata has a dotted domain while the
value itself has no `@` (C2 counterexample input). -/
def c2_entity : Entity :=
  { type := "email", value := "admin", line := 1, context := "admin",
    method := "regex", confidence := mkRat 0 1,
    metadata := { domain := some "example.com" } }

/-- A scanner-shaped email entity (C2 witness input). -/
def c2_ok_entity : Entity :=
  { type := "email", value := "admin@acme.com", line := 1,
    context := "admin@acme.com", method := "regex", confidence := mkRat 0 1,
    metadata := { domain := some "acme.com" } }

/-- An ipv4-typed and an ipv6-typed entity carrying the same value:
their `(type, value)` pairs are distinct, yet `_shared_ips` buckets
them together (C7 counterexample input). -/
def c7_entities : List Entity :=
  [{ type := "ipv4", value := "2001:db8::1", line := 1, context := "",
     method := "regex", confidence := mkRat 9 10, validated := true,
     metadata := {} },
   { type := "ipv6", value := "2001:db8::1", line := 1, context := "",
     method := "regex", confidence := mkRat 9 10, validated := true,
     metadata := {} }]

/-- Two IP entities with distinct values (C7 witness input). -/
def c7_ok_entities : List Entity :=
  [{ type := "ipv4", value := "8.8.8.8", line := 1, context := "",
     method := "regex", confidence := mkRat 9 10, validated := true,
     metadata := {} },
   { type := "ipv4", value := "9.9.9.9", line := 1, context := "",
     method := "regex", confidence := mkRat 9 10, validated := true,
     metadata := {} }]

/-- The 32-zeros candidate of the C5 witness. -/
def zeros32 : String := "00000000000000000000000000000000"

/-- A 32-character value ending in a newline whose first 31 characters
are hex (C5 counterexample input): `re.match(r'^[a-fA-F0-9]+$', v)`
matches it because `$` matches before the final newline. -/
def c5_newline_value : String := "5d41402abc4b2a76b9719d911017c59\n"

/-! Machinery for the shared-ip grouping (`_shared_ips`). -/

/-- Keys of the grouping association list. -/
def assoc_keys (acc : List (String × List (String × String))) : List String :=
  acc.map Prod.fst

/-- First-match bucket lookup in the pair-grouping map. -/
def lookup_pairs (acc : List (String × List (String × String))) (k : String) :
    List (String × String) :=
  match acc with
  | [] => []
  | (k0, vs) :: rest => if k0 = k then vs else lookup_pairs rest k

/-- The per-entity step of the `ip_to_domains` fold. -/
def ip_step (acc : List (String × List (String × String))) (e : Entity) :
    List (String × List (String × String)) :=
  if e.type = "ipv4" ∨ e.type = "ipv6" then
    upsert_pairs acc e.value ("ip", e.value)
  else acc

/-- A validated email candidate (C4 witness input). -/
def c4_input : Entity :=
  { type := "email", value := "intel@corp.net", line := 1,
    context := "intel@corp.net", method := "regex", confidence := mkRat 0 1,
    metadata := { domain := some "corp.net" } }

/-- The record `_validate_entity` produces for `c4_input`. -/
def c4_validated : Entity :=
  { type := "email", value := "intel@corp.net", line := 1,
    context := "intel@corp.net", method := "regex", confidence := mkRat 1 1,
    validated := true, metadata := { domain := some "corp.net" } }

/-- A validated email candidate (C10 witness input). -/
def c10_input : Entity :=
  { type := "email", value := "ops@widget.org", line := 1,
    context := "ops@widget.org", method := "regex", confidence := mkRat 0 1,
    metadata := { domain := some "widget.org" } }

/-! ## Helper lemmas -/

/-- The kernel-reducible addition wrapper denotes rational addition. -/
theorem ratAdd_eq (a b : ℚ) : ratAdd a b = a + b := by
  unfold ratAdd
  have hda : ((a.den : ℚ)) ≠ 0 := by exact_mod_cast a.den_nz
  have hdb : ((b.den : ℚ)) ≠ 0 := by exact_mod_cast b.den_nz
  rw [Rat.mkRat_eq_div]
  conv_rhs => rw [← Rat.num_div_den a, ← Rat.num_div_den b]
  rw [div_add_div _ _ hda hdb]
  push_cast
  ring_nf

/-- The kernel-reducible comparison wrapper denotes rational `≤`. -/
theorem ratLeB_iff (a b : ℚ) : ratLeB a b = true ↔ a ≤ b := by
  unfold ratLeB
  rw [decide_eq_true_eq]
  have hpa : (0 : ℚ) < (a.den : ℚ) := by exact_mod_cast a.pos
  have hpb : (0 : ℚ) < (b.den : ℚ) := by exact_mod_cast b.pos
  rw [show a ≤ b ↔ (a.num : ℚ) / (a.den : ℚ) ≤ (b.num : ℚ) / (b.den : ℚ) by
    rw [Rat.num_div_den, Rat.num_div_den],
    div_le_div_iff₀ hpa hpb]
  exact_mod_cast Iff.rfl

/-- The Python-`min` wrapper denotes the lattice `min` on `ℚ`. -/
theorem pyMin_eq (a b : ℚ) : pyMin a b = min a b := by
  unfold pyMin
  by_cases h : a ≤ b
  · rw [if_pos ((ratLeB_iff a b).mpr h), min_eq_left h]
  · rw [if_neg (fun hc => h ((ratLeB_iff a b).mp hc)),
      min_eq_right (le_of_not_le h)]

/-- Whatever the inputs, `calculate_confidence` returns one of the four
values 0.5, 0.6, 0.9, 1.0 (so rounding to two decimals is the identity
on every score the pipeline produces). -/
theorem calculate_confidence_cases (v t : String) (b : Bool) :
    calculate_confidence v t b = mkRat 1 2 ∨
    calculate_confidence v t b = mkRat 3 5 ∨
    calculate_confidence v t b = mkRat 9 10 ∨
    calculate_confidence v t b = mkRat 1 1 := by
  simp only [calculate_confidence]
  split_ifs <;> decide

/-- A surviving entity of `_validate_entity` carries `validated = true`
and the confidence computed for a passed validation. -/
theorem validate_entity_eq_some {a e : Entity} (h : validate_entity a = some e) :
    e.validated = true ∧ e.confidence = calculate_confidence a.value a.type true := by
  simp only [validate_entity] at h
  split at h
  · next hr =>
    obtain rfl := Option.some.inj h
    exact ⟨hr, by rw [hr]⟩
  · exact absurd h (by simp)

/-- A nonzero natural over itself is one. -/
theorem mkRat_self_ne_zero {n : ℕ} (hn : n ≠ 0) : mkRat (n : ℤ) n = 1 := by
  rw [Rat.mkRat_eq_div]
  push_cast
  exact div_self (by exact_mod_cast hn)

/-- `add_entity` preserves pairwise `(type, value)` distinctness: the
appended candidate was checked against every emitted entity. -/
theorem add_entity_pairwise {acc : List Entity} {e : Entity}
    (h : acc.Pairwise fun a b => ¬(a.type = b.type ∧ a.value = b.value)) :
    (add_entity acc e).Pairwise fun a b => ¬(a.type = b.type ∧ a.value = b.value) := by
  unfold add_entity
  split
  · exact h
  · next hany =>
    rw [List.pairwise_append]
    refine ⟨h, List.pairwise_singleton _ _, ?_⟩
    intro a ha b hb
    simp only [List.mem_singleton] at hb
    subst hb
    simp only [List.any_eq_true, Bool.and_eq_true, beq_iff_eq, not_exists,
      not_and] at hany
    intro hc
    exact absurd hc.2 fun hv => by
      have := hany a ha
      simp [hv, hc.1] at this

/-- Folding candidates through `add_entity` preserves the pairwise
`(type, value)` distinctness of the accumulator. -/
theorem foldl_add_entity_pairwise (cs : List Entity) :
    ∀ acc : List Entity,
      acc.Pairwise (fun a b => ¬(a.type = b.type ∧ a.value = b.value)) →
      (cs.foldl add_entity acc).Pairwise
        fun a b => ¬(a.type = b.type ∧ a.value = b.value) := by
  induction cs with
  | nil => intro acc h; simpa using h
  | cons c cs ih =>
    intro acc h
    simpa using ih (add_entity acc c) (add_entity_pairwise h)

/-- Lower-casing cannot increase the number of distinct characters. -/
theorem toFinset_lower_card_le (v : String) :
    (py_lower v).data.toFinset.card ≤ v.data.toFinset.card := by
  show (v.data.map asciiLower).toFinset.card ≤ v.data.toFinset.card
  have h : (v.data.map asciiLower).toFinset = v.data.toFinset.image asciiLower := by
    ext c
    simp [List.mem_toFinset, List.mem_map, Finset.mem_image]
  rw [h]
  exact Finset.card_image_le

/-- Lower-casing preserves length. -/
theorem lower_length (v : String) : (py_lower v).data.length = v.data.length := by
  show (v.data.map asciiLower).length = v.data.length
  exact List.length_map _ _

/-- Dropping the optional trailing newline removes at most one
character. -/
theorem dollar_view_length_ge (l : List Char) :
    l.length - 1 ≤ (dollar_view l).length := by
  unfold dollar_view
  split
  · simp [List.length_dropLast]
  · omega

/-- More than two distinct lower-cased characters forces at least three
characters. -/
theorem lower_card_pos_length {v : String}
    (h : 2 < (py_lower v).data.toFinset.card) : 3 ≤ v.data.length := by
  have hle := List.toFinset_card_le (l := (py_lower v).data)
  have := lt_of_lt_of_le h hle
  rw [lower_length] at this
  omega

/-- Acceptance characterization of `_validate_hash` for a recognized
hash type: expected length, hex-only, and more than two distinct
characters after lower-casing. -/
theorem validate_hash_eq_true {v t : String} {n : Nat}
    (he : expected_lengths t = some n) :
    validate_hash v t = true ↔
      v.data.length = n ∧ (dollar_view v.data).all is_hex_char = true ∧
      2 < (py_lower v).data.toFinset.card := by
  simp only [validate_hash, he]
  constructor
  · intro h
    split_ifs at h with h1 h2 h3
    all_goals
      first
        | exact absurd h Bool.false_ne_true
        | (simp only [not_not, Bool.and_eq_true, decide_eq_true_eq] at h1 h2 h3
           exact ⟨by omega, h2.2, by omega⟩)
  · rintro ⟨hl, hhex, hcard⟩
    have hlen := lower_card_pos_length hcard
    have hvlen := dollar_view_length_ge v.data
    rw [if_neg (by omega), if_neg (by
      simp only [not_not, Bool.and_eq_true, decide_eq_true_eq]
      exact ⟨by omega, hhex⟩), if_neg (by omega)]

/-- The two C5 directions for any recognized hash type. -/
theorem validate_hash_c5 (v t : String) (n : Nat)
    (he : expected_lengths t = some n) :
    (v.data.length = (expected_lengths t).getD 0 → v.data.toFinset.card ≤ 2 →
      validate_hash v t = false) ∧
    (validate_hash v t = true →
      v.data.length = (expected_lengths t).getD 0 ∧
      (dollar_view v.data).all is_hex_char = true ∧
      2 < v.data.toFinset.card) := by
  rw [he, Option.getD_some]
  constructor
  · intro hlen hcard
    cases hvh : validate_hash v t with
    | false => rfl
    | true =>
      obtain ⟨-, -, hc⟩ := (validate_hash_eq_true he).mp hvh
      exact absurd (lt_of_lt_of_le hc (le_trans (toFinset_lower_card_le v) hcard))
        (by omega)
  · intro h
    obtain ⟨hl, hhex, hc⟩ := (validate_hash_eq_true he).mp h
    exact ⟨hl, hhex, lt_of_lt_of_le hc (toFinset_lower_card_le v)⟩

/-- `validate_ip` on type `ipv4` accepts exactly the amended condition
`ipv4_accepts`. -/
theorem validate_ip_iff_accepts (s : String) :
    validate_ip s "ipv4" = true ↔ ipv4_accepts s := by
  unfold validate_ip ipv4_accepts
  rw [if_pos rfl]
  rcases hps : pySplit s "." with _ | ⟨a, _ | ⟨b, _ | ⟨c, _ | ⟨d, _ | ⟨e5, rest⟩⟩⟩⟩⟩
  · simp
  · simp
  · simp
  · simp
  · rw [if_neg (by simp)]
    constructor
    · intro h
      rcases hA : pyInt a with _ | w <;> rcases hB : pyInt b with _ | x <;>
        rcases hC : pyInt c with _ | y <;> rcases hD : pyInt d with _ | z <;>
        simp only [try_int_list, hA, hB, hC, hD] at h <;>
        try exact absurd h Bool.false_ne_true
      split_ifs at h with h1 h2
      all_goals
        first
        | exact absurd h Bool.false_ne_true
        | (simp only [not_not, List.all_cons, List.all_nil, Bool.and_eq_true,
             decide_eq_true_eq, and_true, List.headD_cons, not_or] at h1 h2
           refine ⟨a, b, c, d, w, x, y, z, rfl, hA, hB, hC, hD,
             ?_, ?_, ?_, ?_, ?_, ?_, ?_, ?_, ?_, ?_⟩ <;> omega)
    · rintro ⟨a', b', c', d', w, x, y, z, heq, hA, hB, hC, hD,
        hw1, hw2, hx1, hx2, hy1, hy2, hz1, hz2, hw0, hw240⟩
      obtain ⟨rfl, rfl, rfl, rfl⟩ : a = a' ∧ b = b' ∧ c = c' ∧ d = d' := by
        simpa using heq
      simp only [try_int_list, hA, hB, hC, hD]
      rw [if_neg (not_not.mpr (by
        simp only [List.all_cons, List.all_nil, Bool.and_eq_true,
          decide_eq_true_eq, and_true]
        omega))]
      rw [if_neg (by simp only [List.headD_cons, not_or]; exact ⟨hw0, by omega⟩)]
  · constructor
    · intro h
      exact absurd h (by simp)
    · rintro ⟨a', b', c', d', w, x, y, z, heq, -⟩
      exact absurd heq (by simp)

/-! Machinery lemmas for the shared-ip grouping (`_shared_ips`). -/

/-- How `upsert_pairs` changes a lookup: the touched bucket grows by the
new entry, all others are unchanged. -/
theorem lookup_upsert_pairs (acc : List (String × List (String × String)))
    (k : String) (v : String × String) (k' : String) :
    lookup_pairs (upsert_pairs acc k v) k' =
      if k' = k then lookup_pairs acc k' ++ [v] else lookup_pairs acc k' := by
  induction acc with
  | nil =>
    by_cases h : k' = k
    · subst h; simp [upsert_pairs, lookup_pairs]
    · simp [upsert_pairs, lookup_pairs, h, Ne.symm h]
  | cons hd tl ih =>
    obtain ⟨k0, vs⟩ := hd
    by_cases h0 : k0 = k
    · subst h0
      by_cases h' : k' = k0
      · subst h'; simp [upsert_pairs, lookup_pairs]
      · simp [upsert_pairs, lookup_pairs, h', Ne.symm h']
    · by_cases h' : k0 = k'
      · subst h'
        simp [upsert_pairs, lookup_pairs, h0, Ne.symm h0]
      · simp [upsert_pairs, lookup_pairs, h0, h', ih]

/-- `upsert_pairs` either keeps the key list or appends the new key. -/
theorem assoc_keys_upsert (acc : List (String × List (String × String)))
    (k : String) (v : String × String) :
    assoc_keys (upsert_pairs acc k v) =
      if k ∈ assoc_keys acc then assoc_keys acc else assoc_keys acc ++ [k] := by
  induction acc with
  | nil => simp [upsert_pairs, assoc_keys]
  | cons hd tl ih =>
    obtain ⟨k0, vs⟩ := hd
    by_cases h0 : k0 = k
    · subst h0; simp [upsert_pairs, assoc_keys]
    · simp only [upsert_pairs, if_neg h0, assoc_keys, List.map_cons] at ih ⊢
      rw [ih]
      by_cases hm : k ∈ List.map Prod.fst tl <;>
        simp [hm, List.mem_cons, Ne.symm h0]

/-- `upsert_pairs` preserves key distinctness. -/
theorem assoc_keys_upsert_nodup {acc : List (String × List (String × String))}
    {k : String} {v : String × String} (h : (assoc_keys acc).Nodup) :
    (assoc_keys (upsert_pairs acc k v)).Nodup := by
  rw [assoc_keys_upsert]
  split
  · exact h
  · next hm => simp [List.nodup_append, h, hm]

/-- With distinct keys, membership determines the lookup. -/
theorem lookup_of_mem {acc : List (String × List (String × String))}
    {p : String × List (String × String)}
    (hnd : (assoc_keys acc).Nodup) (hp : p ∈ acc) :
    lookup_pairs acc p.1 = p.2 := by
  induction acc with
  | nil => cases hp
  | cons hd tl ih =>
    obtain ⟨k0, vs⟩ := hd
    simp only [assoc_keys, List.map_cons, List.nodup_cons] at hnd
    rcases List.mem_cons.mp hp with rfl | htl
    · simp [lookup_pairs]
    · have hk0 : k0 ≠ p.1 := by
        intro hc
        exact hnd.1 (hc ▸ List.mem_map_of_mem Prod.fst htl)
      simp only [lookup_pairs, if_neg hk0]
      exact ih hnd.2 htl

theorem ip_to_domains_eq_foldl (entities : List Entity) :
    ip_to_domains entities = entities.foldl ip_step [] := rfl

theorem ip_values_cons (e : Entity) (es : List Entity) :
    ip_values (e :: es) =
      if e.type = "ipv4" ∨ e.type = "ipv6" then e.value :: ip_values es
      else ip_values es := by
  simp only [ip_values, List.filter_cons]
  split <;> rename_i h
  · rw [if_pos (by simpa using h), List.map_cons]
  · rw [if_neg (by simpa using h)]

theorem foldl_ip_step_keys_nodup (es : List Entity) :
    ∀ acc, (assoc_keys acc).Nodup → (assoc_keys (es.foldl ip_step acc)).Nodup := by
  induction es with
  | nil => intro acc h; simpa using h
  | cons e es ih =>
    intro acc h
    simp only [List.foldl_cons]
    refine ih _ ?_
    unfold ip_step
    split
    · exact assoc_keys_upsert_nodup h
    · exact h

/-- Each bucket of the fold holds one `('ip', k)` entry per IP-typed
entity whose value is `k`. -/
theorem foldl_ip_step_lookup (es : List Entity) :
    ∀ acc k, lookup_pairs (es.foldl ip_step acc) k =
      lookup_pairs acc k ++ List.replicate ((ip_values es).count k) ("ip", k) := by
  induction es with
  | nil => intro acc k; simp [ip_values]
  | cons e es ih =>
    intro acc k
    by_cases he : e.type = "ipv4" ∨ e.type = "ipv6"
    · rw [show (e :: es).foldl ip_step acc = es.foldl ip_step (ip_step acc e) from
        List.foldl_cons ..,
        show ip_step acc e = upsert_pairs acc e.value ("ip", e.value) by
          simp [ip_step, he],
        ih, lookup_upsert_pairs, ip_values_cons, if_pos he]
      by_cases hk : k = e.value
      · subst hk
        rw [if_pos rfl, List.count_cons_self, List.append_assoc,
          List.singleton_append, ← List.replicate_succ]
      · rw [if_neg hk, List.count_cons_of_ne hk]
    · rw [show (e :: es).foldl ip_step acc = es.foldl ip_step (ip_step acc e) from
        List.foldl_cons ..,
        show ip_step acc e = acc by simp [ip_step, he],
        ih, ip_values_cons, if_neg he]

/-- With pairwise-distinct IP values, every bucket is a singleton (or
empty). -/
theorem ip_groups_len_le_one {es : List Entity}
    (hnd : (ip_values es).Nodup) :
    ∀ p ∈ ip_to_domains es, p.2.length ≤ 1 := by
  intro p hp
  have hkeys : (assoc_keys (ip_to_domains es)).Nodup := by
    rw [ip_to_domains_eq_foldl]
    exact foldl_ip_step_keys_nodup es [] (by simp [assoc_keys])
  have hlk := lookup_of_mem hkeys hp
  rw [ip_to_domains_eq_foldl, foldl_ip_step_lookup] at hlk
  have hrep : p.2 = List.replicate ((ip_values es).count p.1) ("ip", p.1) := by
    simpa [lookup_pairs] using hlk.symm
  rw [hrep, List.length_replicate]
  exact List.nodup_iff_count_le_one.mp hnd p.1

/-! ## The claims -/

/-- Claim C1, counterexample.  The claim asserts that for a text
containing `admin@example.com` and `https://example.com/page`, scanning,
validating and running the Relationship Engine (resolution disabled)
yields at least one `shared_domain` edge connecting the email and the
URL.  In fact the pipeline yields NO `shared_domain` edge for that text:
`_validate_url` rejects every URL containing `example.com` as a
placeholder host, so the URL entity is dropped before relationship
inference and the shared-domain rule finds no URL-side domain.
(`c1_scanned` is the Scanner's candidate list for such a text.) -/
theorem C1_counterexample :
    ((build_relationships empty_resolver false
        (classify c1_scanned).entities).2).filter
      (fun r => r.type == "shared_domain") = [] := by decide

/-- Claim C1, amended: for a text whose shared domain is not a
placeholder host (here `admin@acme.com` and `https://acme.com/page`),
the pipeline with resolution disabled produces exactly one
`shared_domain` edge, connecting the email value to the URL value via
the shared domain; for the original `example.com` text it produces
none, because the URL validator drops `example.com` URLs. -/
theorem C1_theorem :
    ((build_relationships empty_resolver false
        (classify c1_amended_scanned).entities).2).filter
      (fun r => r.type == "shared_domain") =
    [{ type := "shared_domain", source := "admin@acme.com",
       target := "https://acme.com/page", confidence := mkRat 85 100,
       metadata := { via_domain := some "acme.com" } }] := by decide

/-- Claim C2, counterexample.  The claim grants the email bonus when a
domain with a dot is present in the entity's METADATA; the code instead
tests the VALUE (`'@' in value and '.' in value.split('@')[1]`).  For an
email-typed entity with value `admin` and metadata domain `example.com`
(validation failed), the claim's formula gives 0.6 but
`calculate_confidence` gives 0.5. -/
theorem C2_counterexample :
    calculate_confidence c2_entity.value c2_entity.type false ≠
      confidence_per_claim c2_entity false ∧
    calculate_confidence c2_entity.value c2_entity.type false = mkRat 1 2 ∧
    confidence_per_claim c2_entity false = mkRat 3 5 := by decide

/-- Claim C2, amended: for every entity of a pipeline type and every
validation outcome, the confidence equals base 0.9/0.5, with the email
bonus +0.1 (capped at 1.0) granted when the VALUE contains `@` with a
dot after the first `@`, the four hash types forced to exactly 1.0 on an
expected-length value, and the result rounded to two decimals
(`confidence_amended`). -/
theorem C2_theorem (e : Entity) (vp : Bool) (ht : e.type ∈ entity_types) :
    calculate_confidence e.value e.type vp = confidence_amended e vp := by
  simp only [entity_types, List.mem_cons, List.not_mem_nil, or_false] at ht
  rcases ht with h|h|h|h|h|h|h|h|h|h|h|h|h|h <;>
    simp [calculate_confidence, confidence_amended, h, hash_types]

/-- Claim C2, witness: the amended formula agrees with the code on a
scanner-shaped validated email entity (both give 1.0). -/
theorem C2_witness :
    c2_ok_entity.type ∈ entity_types ∧
    calculate_confidence c2_ok_entity.value c2_ok_entity.type true =
      confidence_amended c2_ok_entity true :=
  ⟨by decide, C2_theorem c2_ok_entity true (by decide)⟩

/-- Claim C3: no two entities in the Scanner's output share both `type`
and `value`.  Every extraction helper emits through `_add_entity`, so
for any input text the Scanner's output is `candidates.foldl add_entity
[]` for the candidate sequence its patterns produce; the fold's result
is pairwise `(type, value)`-distinct for every candidate sequence. -/
theorem C3_theorem (candidates : List Entity) :
    (candidates.foldl add_entity []).Pairwise
      fun a b => ¬(a.type = b.type ∧ a.value = b.value) :=
  foldl_add_entity_pairwise candidates [] List.Pairwise.nil

/-- Claim C4: every entity surviving the Validator stage has
`validated = true` and a confidence in `[0, 1]` that is a fixed point of
rounding to two decimals; entities failing validation never reach the
output list (`_validate_entity` returns `None` for them, and every
member of the output has `validated = true`). -/
theorem C4_theorem (es : List Entity) (e : Entity)
    (h : e ∈ classify_entities es) :
    e.validated = true ∧ 0 ≤ e.confidence ∧ e.confidence ≤ 1 ∧
    round2 e.confidence = e.confidence := by
  simp only [classify_entities, List.mem_filterMap] at h
  obtain ⟨a, -, ha⟩ := h
  obtain ⟨hval, hconf⟩ := validate_entity_eq_some ha
  refine ⟨hval, ?_, ?_, ?_⟩ <;>
    rcases calculate_confidence_cases a.value a.type true with h1 | h1 | h1 | h1 <;>
      rw [hconf, h1] <;> decide

/-- Claim C4, witness: the surviving entity for a validated email
candidate satisfies all three invariants. -/
theorem C4_witness :
    c4_validated ∈ classify_entities [c4_input] ∧
    (c4_validated.validated = true ∧ 0 ≤ c4_validated.confidence ∧
     c4_validated.confidence ≤ 1 ∧
     round2 c4_validated.confidence = c4_validated.confidence) :=
  ⟨by decide, C4_theorem [c4_input] c4_validated (by decide)⟩

/-- Claim C5, counterexample.  The claim says the hash validator accepts
only hex-only values; but `re.match(r'^[a-fA-F0-9]+$', value)` also
matches a value whose last character is a newline (`$` matches before a
final newline), so the 32-character value consisting of 31 hex
characters and a trailing newline is accepted as MD5 although it is not
hex-only. -/
theorem C5_counterexample :
    validate_hash c5_newline_value "md5" = true ∧
    c5_newline_value.data.all is_hex_char = false ∧
    c5_newline_value.data.length = 32 := by decide

/-- Claim C5, amended: for each of the four hash types, any value of the
expected length with at most two distinct characters is rejected
(unchanged), and an accepted value must be of the expected length, have
more than two distinct characters, and be hex-only apart from an
optional single trailing newline (the `dollar_view`; an artifact of
`$` in `re.match` — values produced by the Scanner never contain
newlines, so pipeline-fed values are genuinely hex-only). -/
theorem C5_theorem (v t : String) (ht : t ∈ hash_types) :
    (v.data.length = (expected_lengths t).getD 0 → v.data.toFinset.card ≤ 2 →
      validate_hash v t = false) ∧
    (validate_hash v t = true →
      v.data.length = (expected_lengths t).getD 0 ∧
      (dollar_view v.data).all is_hex_char = true ∧
      2 < v.data.toFinset.card) := by
  simp only [hash_types, List.mem_cons, List.not_mem_nil, or_false] at ht
  rcases ht with h|h|h|h <;> subst h
  · exact validate_hash_c5 v _ 32 rfl
  · exact validate_hash_c5 v _ 40 rfl
  · exact validate_hash_c5 v _ 64 rfl
  · exact validate_hash_c5 v _ 128 rfl

/-- Claim C5, witness: a string of 32 zeros has the expected MD5 length
and a single distinct character, and is rejected. -/
theorem C5_witness : validate_hash zeros32 "md5" = false :=
  (C5_theorem zeros32 "md5" (by decide)).1 (by decide) (by decide)

/-- Claim C6, counterexample.  The claim says the IPv4 validator accepts
a value iff it is four dot-separated integers in `[0, 255]` with first
octet neither 0 nor ≥ 240.  But the fields go through Python `int()`,
which also accepts underscore-grouped digits: `1_0.2.3.4` is accepted
(`int('1_0') = 10`) although `1_0` is not an integer
(`ipv4_claim_pred` renders the claim's field condition as plain digit
strings). -/
theorem C6_counterexample :
    validate_ip "1_0.2.3.4" "ipv4" = true ∧
    ipv4_claim_pred "1_0.2.3.4" = false := by decide

/-- Claim C6, amended: the IPv4 validator accepts a value iff splitting
on `.` yields exactly four fields, each accepted by Python's `int()`
(optional surrounding whitespace, optional sign, digits with single
underscore separators), with all values in `[0, 255]` and the first
value neither 0 nor ≥ 240 (`ipv4_accepts`); on plain digit fields this
coincides with the claim's rule.  In particular `0.0.0.0` and
`256.1.1.1` are rejected and `8.8.8.8` and `192.168.1.1` accepted. -/
theorem C6_theorem :
    (∀ s : String, validate_ip s "ipv4" = true ↔ ipv4_accepts s) ∧
    validate_ip "0.0.0.0" "ipv4" = false ∧
    validate_ip "256.1.1.1" "ipv4" = false ∧
    validate_ip "8.8.8.8" "ipv4" = true ∧
    validate_ip "192.168.1.1" "ipv4" = true :=
  ⟨validate_ip_iff_accepts, by decide, by decide, by decide, by decide⟩

/-- Claim C7, counterexample.  The claim says the shared-network rule
emits zero edges on every entity list whose `(type, value)` pairs are
unique.  But `_shared_ips` buckets by VALUE alone over both IP types: an
`ipv4`-typed and an `ipv6`-typed entity carrying the same value have
distinct `(type, value)` pairs yet share a bucket of size two, emitting
a `shared_ip` edge. -/
theorem C7_counterexample :
    c7_entities.Pairwise (fun a b => ¬(a.type = b.type ∧ a.value = b.value)) ∧
    (shared_ips (c7_entities, [])).2 ≠ [] := by decide

/-- Claim C7, amended: the shared-network rule is a no-op (emits zero
edges, leaving the state unchanged) on every entity list whose IP-typed
entities have pairwise-distinct VALUES — which the Scanner guarantees
within a single document, since its `(type, value)` deduplication plus
the disjoint ipv4/ipv6 lexical patterns (dotted quads never equal
colon-separated forms) make IP values unique. -/
theorem C7_theorem (es : List Entity) (rels : List Relationship)
    (hnd : (ip_values es).Nodup) :
    shared_ips (es, rels) = (es, rels) := by
  unfold shared_ips
  have hlen := ip_groups_len_le_one hnd
  suffices hfold : ∀ (gs : List (String × List (String × String)))
      (rs : List Relationship), (∀ p ∈ gs, p.2.length ≤ 1) →
      gs.foldl (fun rs2 kv =>
        if 1 < kv.2.length then
          (all_pairs kv.2).foldl (fun rs3 pq =>
            add_relationship rs3 "shared_ip" pq.1.2 pq.2.2 (mkRat 8 10)
              { shared_ip := some kv.1 }) rs2
        else rs2) rs = rs by
    rw [hfold _ _ hlen]
  intro gs
  induction gs with
  | nil => intro rs _; rfl
  | cons g gs ih =>
    intro rs hg
    rw [List.foldl_cons, if_neg (by
      have := hg g (List.mem_cons_self g gs)
      omega)]
    exact ih rs fun p hp => hg p (List.mem_cons_of_mem g hp)

/-- Claim C7, witness: on two IP entities with distinct values the rule
adds nothing. -/
theorem C7_witness : shared_ips (c7_ok_entities, []) = (c7_ok_entities, []) :=
  C7_theorem c7_ok_entities [] (by decide)

/-- Claim C8: `build_relationships` does not mutate the entity list —
each rule reads the entities and extends only the relationship list, so
the entity list in the final state is (field for field) the input list,
for any resolver, DNS toggle and entity list. -/
theorem C8_theorem (resolve : String → String → List String)
    (enable_dns_lookup : Bool) (entities : List Entity) :
    (build_relationships resolve enable_dns_lookup entities).1 = entities := by
  cases enable_dns_lookup <;> rfl

/-- Claim C9: on an empty entity set and empty relationship set the
Graph Assembler returns a graph with 0 nodes and 0 edges, and its
statistics report 0 nodes, 0 edges, density 0 and 0 connected components
(both functions are total, so no error is raised). -/
theorem C9_theorem :
    (build_graph [] []).nodes = [] ∧ (build_graph [] []).edges = [] ∧
    get_graph_statistics (build_graph [] []) =
      { nodes := 0, edges := 0, density := 0, components := 0,
        avg_degree := none, top_connected_nodes := none } := by decide

/-- Claim C10: for every input whose validated entity list is non-empty,
the reported `validation_rate` is exactly 1, because
`_generate_statistics` counts `validated` flags over the
already-filtered list, in which every entity has `validated = true`. -/
theorem C10_theorem (es : List Entity) (h : (classify es).entities ≠ []) :
    (classify es).statistics.validation_rate = 1 := by
  simp only [classify] at h ⊢
  set l := classify_entities es with hl
  have hlen : l.length ≠ 0 := by simpa [List.length_eq_zero] using h
  have hall : ∀ e ∈ l, e.validated = true := by
    intro e he
    simp only [hl, classify_entities, List.mem_filterMap] at he
    obtain ⟨a, -, ha⟩ := he
    exact (validate_entity_eq_some ha).1
  have hcount : l.countP (·.validated) = l.length := by
    rw [List.countP_eq_length]
    intro a ha; simpa using hall a ha
  simp only [generate_statistics, if_neg hlen, hcount]
  rw [mkRat_self_ne_zero hlen]
  decide

/-- Claim C10, witness: a single validated email gives rate 1. -/
theorem C10_witness : (classify [c10_input]).statistics.validation_rate = 1 :=
  C10_theorem [c10_input] (by decide)
